import Mathlib

/-!
Verification of the Midea x40 device adapter
(`src/midealocal/devices/x40/__init__.py`).

The adapter is shallowly embedded: Python numbers are `Int`/`Rat`,
the attribute dictionary (whose key set is fixed at construction) is a
structure, fallible Python operations return `Except`, and the
collaborator classes that are not part of this repository's source
tree (`MessageX40Response`, `MessageSet`, the `MideaDevice` base
class's `build_send`/`update_all`, and the standard-library
`json.loads`) are modelled from the specification, as noted on each
such definition.
-/

/-- Exceptions that the embedded Python fragments can raise. -/
inductive PyErr where
  | valueError
  | typeError
  | attributeError
deriving DecidableEq

/-- Values a caller can pass for an attribute: the Python annotation
is `float | str | bool`; `int` is included since Python does not
enforce the annotation and integers are the common case. Floats are
modelled as exact rationals. -/
inductive PyVal where
  | int (n : Int)
  | float (q : Rat)
  | str (s : String)
  | bool (b : Bool)
deriving DecidableEq

/-- Truncation toward zero, as Python's `int(float)` does. -/
def ratTrunc (q : Rat) : Int :=
  Int.tdiv q.num (Int.ofNat q.den)

/-- Value of a nonempty all-digit character list, `none` otherwise. -/
def digitsVal (cs : List Char) : Option Nat :=
  if cs = [] then none
  else if cs.all Char.isDigit then
    some (cs.foldl (fun a c => a * 10 + (c.toNat - 48)) 0)
  else none

/-- ASCII whitespace as stripped by Python's `int(str)`. -/
def isPySpace (c : Char) : Bool :=
  c = ' ' ∨ c = '\t' ∨ c = '\n' ∨ c = '\r' ∨ c = '\x0b' ∨ c = '\x0c'

/-- Drop leading and trailing whitespace from a character list. -/
def stripSpaces (cs : List Char) : List Char :=
  (((cs.dropWhile isPySpace).reverse.dropWhile isPySpace)).reverse

/-- Python `int(str)`: strips surrounding whitespace, accepts an
optional sign followed by decimal digits, raises `ValueError`
otherwise. (Digit-group underscores and non-ASCII digits, which
Python also accepts, are not modelled.) -/
def pyStrToInt (s : String) : Except PyErr Int :=
  match stripSpaces s.data with
  | '-' :: rest =>
    match digitsVal rest with
    | some n => Except.ok (-(Int.ofNat n))
    | none => Except.error PyErr.valueError
  | '+' :: rest =>
    match digitsVal rest with
    | some n => Except.ok (Int.ofNat n)
    | none => Except.error PyErr.valueError
  | l =>
    match digitsVal l with
    | some n => Except.ok (Int.ofNat n)
    | none => Except.error PyErr.valueError

/-- Python `int(x)` for `x : float | str | bool | int`. -/
def pyInt : PyVal → Except PyErr Int
  | PyVal.int n => Except.ok n
  | PyVal.float q => Except.ok (ratTrunc q)
  | PyVal.str s => pyStrToInt s
  | PyVal.bool b => Except.ok (if b then 1 else 0)

/-- Python `bool(x)` for `x : float | str | bool | int`. -/
def pyBool : PyVal → Bool
  | PyVal.int n => n ≠ 0
  | PyVal.float q => q ≠ 0
  | PyVal.str s => s ≠ ""
  | PyVal.bool b => b

/-! Module-level constants of the adapter. -/

def DIRECTION_MIN_VALUE : Int := 60
def DIRECTION_MAX_VALUE : Int := 120
def VENTILATION_FAN_SPEED : Int := 2
def DIRECTION_OSCILLATE : Int := 0xFD
def DIRECTION_STOP : Int := 0xFE
def DIRECTION_00 : Int := 0x00
def DIRECTION_FF : Int := 0xFF

/-- Embedding of the static method `_convert_to_midea_direction`:
coerce the user value with `int(...)` (which can raise `ValueError`),
then return it when it is `0xFD`, `0xFE` or in `[60, 120]`, and
`0xFF` otherwise. -/
def convert_to_midea_direction (direction : PyVal) : Except PyErr Int :=
  match pyInt direction with
  | Except.error e => Except.error e
  | Except.ok d =>
    if d = DIRECTION_OSCILLATE ∨ d = DIRECTION_STOP ∨
        (DIRECTION_MIN_VALUE ≤ d ∧ d ≤ DIRECTION_MAX_VALUE) then
      Except.ok d
    else
      Except.ok DIRECTION_FF

example : convert_to_midea_direction (PyVal.int 75) = Except.ok 75 := rfl
example : convert_to_midea_direction (PyVal.int 45) = Except.ok 0xFF := rfl
example : convert_to_midea_direction (PyVal.str " 70 ") = Except.ok 70 := rfl
example : convert_to_midea_direction (PyVal.str "abc")
    = Except.error PyErr.valueError := rfl
example : convert_to_midea_direction (PyVal.bool true) = Except.ok 0xFF := rfl

/-! A JSON value model and a parser standing for Python's
`json.loads`, which the adapter calls in `set_customize`. -/

/-- JSON values, as produced by `json.loads`; `null` also stands for
Python `None` where an attribute is typed `bool | None`. -/
inductive Json where
  | null
  | bool (b : Bool)
  | num (q : Rat)
  | str (s : String)
  | arr (xs : List Json)
  | obj (kvs : List (String × Json))

/-- Python truthiness of a JSON value. -/
def truthy : Json → Bool
  | Json.null => false
  | Json.bool b => b
  | Json.num q => q ≠ 0
  | Json.str s => s ≠ ""
  | Json.arr xs => !xs.isEmpty
  | Json.obj kvs => !kvs.isEmpty

/-- Skip JSON whitespace. -/
def skipWs : List Char → List Char
  | [] => []
  | c :: cs =>
    if c = ' ' ∨ c = '\t' ∨ c = '\n' ∨ c = '\r' then skipWs cs else c :: cs

/-- Parse the remainder of a JSON string literal (opening quote
already consumed); handles the common escapes. -/
def parseStrAux : List Char → List Char → Option (String × List Char)
  | _, [] => none
  | acc, '"' :: rest => some (String.mk acc.reverse, rest)
  | acc, '\\' :: c :: rest =>
    let m : Option Char :=
      if c = '"' then some '"'
      else if c = '\\' then some '\\'
      else if c = '/' then some '/'
      else if c = 'n' then some '\n'
      else if c = 't' then some '\t'
      else if c = 'r' then some '\r'
      else none
    (match m with
     | some ch => parseStrAux (ch :: acc) rest
     | none => none)
  | acc, c :: rest => parseStrAux (c :: acc) rest

/-- Parse a JSON number (integer or decimal fraction; exponents are
not modelled) as an exact rational. -/
def parseNum (cs : List Char) : Option (Rat × List Char) :=
  let p := match cs with
    | '-' :: rest => (true, rest)
    | _ => (false, cs)
  let neg := p.1
  let cs1 := p.2
  let intPart := cs1.takeWhile Char.isDigit
  let cs2 := cs1.dropWhile Char.isDigit
  if intPart = [] then none
  else
    let iv : Nat := intPart.foldl (fun a c => a * 10 + (c.toNat - 48)) 0
    match cs2 with
    | '.' :: cs3 =>
      let fracPart := cs3.takeWhile Char.isDigit
      let cs4 := cs3.dropWhile Char.isDigit
      if fracPart = [] then none
      else
        let fv : Nat := fracPart.foldl (fun a c => a * 10 + (c.toNat - 48)) 0
        let q : Rat := (iv : Rat) + (fv : Rat) / ((10 : Rat) ^ fracPart.length)
        some (if neg then -q else q, cs4)
    | _ => some (if neg then -(iv : Rat) else (iv : Rat), cs2)

mutual

/-- Fuel-indexed recursive-descent parser for one JSON value. -/
def parseVal : Nat → List Char → Option (Json × List Char)
  | 0, _ => none
  | Nat.succ fuel, cs =>
    match skipWs cs with
    | 'n' :: 'u' :: 'l' :: 'l' :: rest => some (Json.null, rest)
    | 't' :: 'r' :: 'u' :: 'e' :: rest => some (Json.bool true, rest)
    | 'f' :: 'a' :: 'l' :: 's' :: 'e' :: rest => some (Json.bool false, rest)
    | '"' :: rest => (parseStrAux [] rest).map (fun p => (Json.str p.1, p.2))
    | '[' :: rest =>
      (match skipWs rest with
       | ']' :: rest2 => some (Json.arr [], rest2)
       | cs2 => (parseArrItems fuel cs2).map (fun p => (Json.arr p.1, p.2)))
    | '\x7b' :: rest =>
      (match skipWs rest with
       | '\x7d' :: rest2 => some (Json.obj [], rest2)
       | cs2 => (parseObjItems fuel cs2).map (fun p => (Json.obj p.1, p.2)))
    | cs1 => (parseNum cs1).map (fun p => (Json.num p.1, p.2))

/-- Parse one or more comma-separated array items up to `]`. -/
def parseArrItems : Nat → List Char → Option (List Json × List Char)
  | 0, _ => none
  | Nat.succ fuel, cs => do
    let (v, rest) ← parseVal fuel cs
    match skipWs rest with
    | ',' :: rest2 => do
      let (vs, rest3) ← parseArrItems fuel rest2
      pure (v :: vs, rest3)
    | ']' :: rest2 => pure ([v], rest2)
    | _ => none

/-- Parse one or more comma-separated object members up to the
closing brace. -/
def parseObjItems : Nat → List Char → Option (List (String × Json) × List Char)
  | 0, _ => none
  | Nat.succ fuel, cs =>
    match skipWs cs with
    | '"' :: rest => do
      let (k, rest1) ← parseStrAux [] rest
      match skipWs rest1 with
      | ':' :: rest2 => do
        let (v, rest3) ← parseVal fuel rest2
        (match skipWs rest3 with
         | ',' :: rest4 => do
           let (kvs, rest5) ← parseObjItems fuel rest4
           pure ((k, v) :: kvs, rest5)
         | '\x7d' :: rest4 => pure ([(k, v)], rest4)
         | _ => none)
      | _ => none
    | _ => none

end

/-- Model of Python `json.loads`: parse one JSON document, requiring
only whitespace after it; any failure is the caught-exception case. -/
def jsonLoads (s : String) : Except Unit Json :=
  match parseVal (2 * s.length + 4) s.data with
  | some (j, rest) => if skipWs rest = [] then Except.ok j else Except.error ()
  | none => Except.error ()

example : jsonLoads "\x7b\"precision_halves\": true\x7d"
    = Except.ok (Json.obj [("precision_halves", Json.bool true)]) := rfl
example : jsonLoads "\x7bbad json" = Except.error () := rfl
example : jsonLoads "" = Except.error () := rfl
example : jsonLoads "[true, null]"
    = Except.ok (Json.arr [Json.bool true, Json.null]) := rfl

/-- Python `key in params` on a JSON value: key membership for a
dict, element equality for a list, substring test for a string, and
`TypeError` for the scalar types. -/
def pyIn (key : String) : Json → Except PyErr Bool
  | Json.obj kvs => Except.ok (kvs.any (fun kv => kv.1 = key))
  | Json.arr xs =>
    Except.ok (xs.any (fun x => match x with
      | Json.str s => s = key
      | _ => false))
  | Json.str s => Except.ok ((s.data.tails).any (fun t => key.data.isPrefixOf t))
  | _ => Except.error PyErr.typeError

/-- Python `params.get(key)` on a JSON value: only a dict has `.get`
(any other type raises `AttributeError`); a missing key yields
`None`, and a duplicated key the last binding, as `json.loads`
produces. -/
def pyGet (j : Json) (key : String) : Except PyErr Json :=
  match j with
  | Json.obj kvs =>
    Except.ok (((kvs.reverse.find? (fun kv => kv.1 = key)).map Prod.snd).getD Json.null)
  | _ => Except.error PyErr.attributeError

/-! The device state and the collaborator message classes. -/

/-- Modelled from the spec: `MessageSet` is an outbound-message
carrier exposing a raw `fields` mapping plus the per-attribute
fields that `set_attribute` writes. The fields hold whatever Python
value the adapter assigns (stored attribute values or the raw
user-supplied value written by `setattr`). -/
structure MessageSet where
  fields : List (String × Int)
  light : PyVal
  ventilation : PyVal
  smelly_sensor : PyVal
  fan_speed : PyVal
  direction : PyVal
deriving DecidableEq

/-- Modelled from the spec: a decoded inbound frame
(`MessageX40Response`) exposes a raw `fields` mapping and, optionally
(`hasattr`), one same-named field per tracked attribute. Per §4.1 of
the spec the wire protocol multiplexes direction and oscillation into
the single direction byte, so the message carries no separate
oscillation field; the direction byte is an arbitrary integer read
from the wire. Temperatures are exact rationals. -/
structure MessageX40Response where
  fields : List (String × Int)
  light : Option Bool := none
  fan_speed : Option Int := none
  direction : Option Int := none
  ventilation : Option Bool := none
  smelly_sensor : Option Bool := none
  current_temperature : Option Rat := none

/-- The adapter's state: the attribute dictionary created in
`__init__` (fixed key set, so a structure), the raw field cache
`_fields`, the precision flag `_precision_halves` (a `bool | None`
annotation that `set_customize` can in fact fill with any JSON
value), and — modelled from the spec — the observable effects on the
base class: messages handed to `build_send` (`outbox`), payload
values handed to `update_all` (`updateAllLog`), and a count of logged
caught exceptions (`exceptionLog`). -/
structure DeviceState where
  light : Bool
  fan_speed : Int
  direction : Option Int
  oscillation : Option Bool
  ventilation : Bool
  smelly_sensor : Bool
  current_temperature : Option Rat
  fields : List (String × Int)
  precision_halves : Json
  outbox : List MessageSet
  updateAllLog : List Json
  exceptionLog : Nat

/-- Embedding of `_get_midea_direction`: encode the stored
(oscillation, direction) pair into one wire byte. -/
def get_midea_direction (st : DeviceState) : Int :=
  match st.oscillation with
  | some true => DIRECTION_OSCILLATE
  | some false =>
    (match st.direction with
     | none => DIRECTION_STOP
     | some d => d)
  | none => DIRECTION_FF

/-- Embedding of `process_message`: replace the raw field cache,
then visit the tracked attributes in dictionary insertion order
(light, fan_speed, direction, oscillation, ventilation,
smelly_sensor, current_temperature), updating each one the decoded
message exposes; the direction byte goes through the special decode
(`continue` on 0xFE/0x00/0xFF, oscillate on 0xFD, store otherwise),
the response exposes no oscillation field, and the temperature is
halved when the precision flag is truthy. Returns the new state and
the `new_status` mapping. -/
def process_message (st0 : DeviceState) (m : MessageX40Response) :
    DeviceState × List (String × Json) :=
  let st := { st0 with fields := m.fields }
  let p :=
    match m.light with
    | some v => ({ st with light := v }, [("light", Json.bool v)])
    | none => (st, ([] : List (String × Json)))
  let p :=
    match m.fan_speed with
    | some v => ({ p.1 with fan_speed := v }, p.2 ++ [("fan_speed", Json.num v)])
    | none => p
  let p :=
    match m.direction with
    | some v =>
      if v = DIRECTION_STOP ∨ v = DIRECTION_00 ∨ v = DIRECTION_FF then
        p
      else if v = DIRECTION_OSCILLATE then
        ({ p.1 with oscillation := some true, direction := none },
         p.2 ++ [("direction", Json.null)])
      else
        ({ p.1 with oscillation := some false, direction := some v },
         p.2 ++ [("direction", Json.num v)])
    | none => p
  let p :=
    match m.ventilation with
    | some v => ({ p.1 with ventilation := v }, p.2 ++ [("ventilation", Json.bool v)])
    | none => p
  let p :=
    match m.smelly_sensor with
    | some v => ({ p.1 with smelly_sensor := v }, p.2 ++ [("smelly_sensor", Json.bool v)])
    | none => p
  let p :=
    match m.current_temperature with
    | some v =>
      let v := if truthy p.1.precision_halves then v / 2 else v
      ({ p.1 with current_temperature := some v },
       p.2 ++ [("current_temperature", Json.num v)])
    | none => p
  p

/-- The five settable attribute names tested by `set_attribute`
(`StrEnum` members compare equal to their string values). -/
def settable : List String :=
  ["light", "fan_speed", "direction", "ventilation", "smelly_sensor"]

/-- Python `setattr(message, attr, value)` for the else branch of
`set_attribute` (reached only for attribute names other than
`direction`). -/
def msgSetattr (msg : MessageSet) (attr : String) (v : PyVal) : MessageSet :=
  if attr = "light" then { msg with light := v }
  else if attr = "fan_speed" then { msg with fan_speed := v }
  else if attr = "ventilation" then { msg with ventilation := v }
  else if attr = "smelly_sensor" then { msg with smelly_sensor := v }
  else if attr = "direction" then { msg with direction := v }
  else msg

/-- Embedding of `set_attribute`: for a settable attribute name,
build a `MessageSet` pre-populated from the raw field cache and the
stored attributes (direction via the encode rule), apply the
requested change (direction via `_convert_to_midea_direction`, which
can raise; the ventilation/fan-speed-2 special case; otherwise a raw
`setattr`), and hand the message to `build_send` — modelled from the
spec as appending to the outbox, with no other state effect. For any
other attribute name, do nothing. -/
def set_attribute (st : DeviceState) (attr : String) (value : PyVal) :
    DeviceState × Except PyErr Unit :=
  if attr ∈ settable then
    let message : MessageSet :=
      { fields := st.fields
        light := PyVal.bool st.light
        ventilation := PyVal.bool st.ventilation
        smelly_sensor := PyVal.bool st.smelly_sensor
        fan_speed := PyVal.int st.fan_speed
        direction := PyVal.int (get_midea_direction st) }
    if attr = "direction" then
      match convert_to_midea_direction value with
      | Except.ok d =>
        ({ st with outbox := st.outbox ++ [{ message with direction := PyVal.int d }] },
         Except.ok ())
      | Except.error e => (st, Except.error e)
    else if attr = "ventilation" ∧ message.fan_speed = PyVal.int VENTILATION_FAN_SPEED then
      let message := { message with fan_speed := PyVal.int 1
                                    ventilation := PyVal.bool (pyBool value) }
      ({ st with outbox := st.outbox ++ [message] }, Except.ok ())
    else
      let message := msgSetattr message attr value
      ({ st with outbox := st.outbox ++ [message] }, Except.ok ())
  else
    (st, Except.ok ())

/-- The fixed default of the precision flag
(`_default_precision_halves = False`). -/
def default_precision_halves : Json := Json.bool false

/-- Body of the `try` block of `set_customize`: `json.loads` the
string, and when the parsed value is truthy and contains the key
`precision_halves`, produce `params.get("precision_halves")`. Any
raised exception — parse failure, `in` on a scalar (`TypeError`),
`.get` on a non-dict (`AttributeError`) — is the `error` case. -/
def customizeParse (customize : String) : Except PyErr (Option Json) := do
  match jsonLoads customize with
  | Except.error _ => throw PyErr.valueError
  | Except.ok params =>
    if truthy params then do
      let b ← pyIn "precision_halves" params
      if b then do
        let v ← pyGet params "precision_halves"
        pure (some v)
      else pure none
    else pure none

/-- Embedding of `set_customize`: reset the precision flag to the
default; when the customize string is nonempty, run the guarded
parse (`customizeParse`) — on an exception count it as logged and
keep the flag, on success adopt the extracted value if any — and
then (still only for a nonempty string) pass the resolved flag to
`update_all`, modelled from the spec as appending the payload value
to `updateAllLog`. -/
def set_customize (st : DeviceState) (customize : String) : DeviceState :=
  let st := { st with precision_halves := default_precision_halves }
  if customize ≠ "" then
    let st :=
      match customizeParse customize with
      | Except.ok (some v) => { st with precision_halves := v }
      | Except.ok none => st
      | Except.error _ => { st with exceptionLog := st.exceptionLog + 1 }
    { st with updateAllLog := st.updateAllLog ++ [st.precision_halves] }
  else st

/-- Embedding of `__init__`: the attribute dictionary's initial
values, an empty raw field cache, `_precision_halves = None`, no
observed base-class effects, then the constructor's
`set_customize(customize)` call. -/
def initial_state (customize : String) : DeviceState :=
  set_customize
    { light := false
      fan_speed := 0
      direction := none
      oscillation := none
      ventilation := false
      smelly_sensor := false
      current_temperature := none
      fields := []
      precision_halves := Json.null
      outbox := []
      updateAllLog := []
      exceptionLog := 0 }
    customize

/-- One externally triggered operation on the adapter: an inbound
frame or an attribute-set request. -/
inductive Event where
  | msg (m : MessageX40Response)
  | set (attr : String) (v : PyVal)

/-- Apply one event to the state (discarding return values). -/
def applyEvent (st : DeviceState) : Event → DeviceState
  | Event.msg m => (process_message st m).1
  | Event.set attr v => (set_attribute st attr v).1

/-- Run a sequence of events from a state. -/
def runEvents (st : DeviceState) : List Event → DeviceState
  | [] => st
  | e :: es => runEvents (applyEvent st e) es

example : truthy (initial_state "\x7b\"precision_halves\": true\x7d").precision_halves
    = true := rfl
example : (initial_state "").updateAllLog = [] := rfl
example : (initial_state "\x7bbad json").exceptionLog = 1 := rfl
example : truthy (initial_state "\x7bbad json").precision_halves = false := rfl

/-! Helper lemmas about the embedded operations. -/

/-- The stored direction after `process_message` depends only on the
message's direction byte: sentinels 0xFE/0x00/0xFF leave it alone,
0xFD clears it, any other exposed byte is stored. -/
theorem process_message_fst_direction (st : DeviceState) (m : MessageX40Response) :
    (process_message st m).1.direction =
      (match m.direction with
       | some v =>
         if v = DIRECTION_STOP ∨ v = DIRECTION_00 ∨ v = DIRECTION_FF then st.direction
         else if v = DIRECTION_OSCILLATE then none
         else some v
       | none => st.direction) := by
  obtain ⟨flds, l, f, d, vt, sm, ct⟩ := m
  cases l <;> cases f <;> cases d <;> cases vt <;> cases sm <;> cases ct <;>
    simp only [process_message] <;> split <;> simp <;> split <;> simp

/-- The stored oscillation after `process_message` likewise depends
only on the direction byte. -/
theorem process_message_fst_oscillation (st : DeviceState) (m : MessageX40Response) :
    (process_message st m).1.oscillation =
      (match m.direction with
       | some v =>
         if v = DIRECTION_STOP ∨ v = DIRECTION_00 ∨ v = DIRECTION_FF then st.oscillation
         else if v = DIRECTION_OSCILLATE then some true
         else some false
       | none => st.oscillation) := by
  obtain ⟨flds, l, f, d, vt, sm, ct⟩ := m
  cases l <;> cases f <;> cases d <;> cases vt <;> cases sm <;> cases ct <;>
    simp only [process_message] <;> split <;> simp <;> split <;> simp

/-- The stored temperature after `process_message`: an exposed raw
value is halved exactly when the precision flag is truthy. -/
theorem process_message_fst_temperature (st : DeviceState) (m : MessageX40Response) :
    (process_message st m).1.current_temperature =
      (match m.current_temperature with
       | some v => some (if truthy st.precision_halves then v / 2 else v)
       | none => st.current_temperature) := by
  obtain ⟨flds, l, f, d, vt, sm, ct⟩ := m
  cases l <;> cases f <;> cases d <;> cases vt <;> cases sm <;> cases ct <;>
    simp only [process_message] <;> split <;> simp <;> split <;> simp

/-- `set_attribute` returns the input state with at most the outbox
changed. -/
theorem set_attribute_fst (st : DeviceState) (attr : String) (value : PyVal) :
    (set_attribute st attr value).1 =
      { st with outbox := (set_attribute st attr value).1.outbox } := by
  unfold set_attribute
  split
  · split
    · cases convert_to_midea_direction value <;> simp
    · simp only []
      split <;> simp
  · simp

/-- The outbox after `set_attribute` is the old outbox plus the sent
messages (none or one). -/
theorem set_attribute_outbox (st : DeviceState) (attr : String) (value : PyVal) :
    ∃ sent : List MessageSet,
      (set_attribute st attr value).1.outbox = st.outbox ++ sent := by
  unfold set_attribute
  split
  · split
    · cases convert_to_midea_direction value with
      | ok d => exact ⟨_, rfl⟩
      | error e => exact ⟨[], by simp⟩
    · simp only []
      split
      · exact ⟨_, rfl⟩
      · exact ⟨_, rfl⟩
  · exact ⟨[], by simp⟩

/-- `set_customize` never changes the stored direction. -/
theorem set_customize_direction (st : DeviceState) (c : String) :
    (set_customize st c).direction = st.direction := by
  unfold set_customize
  split
  · cases customizeParse c with
    | ok o => cases o <;> simp
    | error e => simp
  · simp

/-! The claims. -/

/-- C1 (corrected), counterexample to the claim as stated: on the
non-numeric string input "abc" the user-direction coercion does not
return 0xFF — Python's `int("abc")` raises `ValueError`, which
propagates. -/
theorem C1_counterexample_abc_raises :
    convert_to_midea_direction (PyVal.str "abc") = Except.error PyErr.valueError :=
  rfl

/-- C1 (amended): for every input whose integer coercion succeeds
(every number and boolean, and the numeric strings), the coercion
never raises and returns the coerced integer when it is 0xFD, 0xFE
or in [60, 120] and 0xFF otherwise; when the integer coercion itself
raises (non-numeric strings), that exception propagates. -/
theorem C1_convert_to_midea_direction_total (v : PyVal) :
    (∀ d : Int, pyInt v = Except.ok d →
      ((d = DIRECTION_OSCILLATE ∨ d = DIRECTION_STOP ∨
          (DIRECTION_MIN_VALUE ≤ d ∧ d ≤ DIRECTION_MAX_VALUE)) →
        convert_to_midea_direction v = Except.ok d) ∧
      (¬(d = DIRECTION_OSCILLATE ∨ d = DIRECTION_STOP ∨
          (DIRECTION_MIN_VALUE ≤ d ∧ d ≤ DIRECTION_MAX_VALUE)) →
        convert_to_midea_direction v = Except.ok DIRECTION_FF)) ∧
    (∀ e : PyErr, pyInt v = Except.error e →
      convert_to_midea_direction v = Except.error e) := by
  refine ⟨fun d hd => ⟨fun hva => ?_, fun hva => ?_⟩, fun e he => ?_⟩ <;>
    unfold convert_to_midea_direction
  · simp only [hd]
    exact if_pos hva
  · simp only [hd]
    exact if_neg hva
  · simp only [he]

/-- C1 witness: the in-range input 75 round-trips to itself. -/
theorem C1_witness :
    convert_to_midea_direction (PyVal.int 75) = Except.ok 75 :=
  ((C1_convert_to_midea_direction_total (PyVal.int 75)).1 75 rfl).1
    (Or.inr (Or.inr (by constructor <;> decide)))

/-- C2 (confirmed): for an inbound message exposing a direction
byte, `process_message` applies the decode table — 0x00/0xFE/0xFF
leave both stored direction and oscillation unchanged, 0xFD sets
oscillation and clears direction, a byte in [60, 120] clears
oscillation and stores the byte. -/
theorem C2_process_message_direction_decode (st : DeviceState)
    (m : MessageX40Response) (d : Int) (hd : m.direction = some d) :
    ((d = DIRECTION_00 ∨ d = DIRECTION_STOP ∨ d = DIRECTION_FF) →
      (process_message st m).1.direction = st.direction ∧
      (process_message st m).1.oscillation = st.oscillation) ∧
    (d = DIRECTION_OSCILLATE →
      (process_message st m).1.oscillation = some true ∧
      (process_message st m).1.direction = none) ∧
    ((DIRECTION_MIN_VALUE ≤ d ∧ d ≤ DIRECTION_MAX_VALUE) →
      (process_message st m).1.oscillation = some false ∧
      (process_message st m).1.direction = some d) := by
  have h1 := process_message_fst_direction st m
  have h2 := process_message_fst_oscillation st m
  simp only [hd] at h1 h2
  refine ⟨fun hs => ?_, fun hs => ?_, fun hs => ?_⟩
  · have hc : d = DIRECTION_STOP ∨ d = DIRECTION_00 ∨ d = DIRECTION_FF := by tauto
    rw [if_pos hc] at h1 h2
    exact ⟨h1, h2⟩
  · subst hs
    simp only [DIRECTION_OSCILLATE, DIRECTION_STOP, DIRECTION_00, DIRECTION_FF] at h1 h2
    norm_num at h1 h2
    exact ⟨h2, h1⟩
  · have hc1 : ¬(d = DIRECTION_STOP ∨ d = DIRECTION_00 ∨ d = DIRECTION_FF) := by
      simp only [DIRECTION_STOP, DIRECTION_00, DIRECTION_FF,
        DIRECTION_MIN_VALUE, DIRECTION_MAX_VALUE] at hs ⊢
      omega
    have hc2 : ¬(d = DIRECTION_OSCILLATE) := by
      simp only [DIRECTION_OSCILLATE, DIRECTION_MIN_VALUE, DIRECTION_MAX_VALUE] at hs ⊢
      omega
    rw [if_neg hc1, if_neg hc2] at h1 h2
    exact ⟨h2, h1⟩

/-- C2 witness: the oscillate byte 0xFD sets stored oscillation and
clears stored direction on a fresh device. -/
theorem C2_witness :
    (process_message (initial_state "")
        { fields := [], direction := some DIRECTION_OSCILLATE }).1.oscillation = some true ∧
    (process_message (initial_state "")
        { fields := [], direction := some DIRECTION_OSCILLATE }).1.direction = none :=
  (C2_process_message_direction_decode (initial_state "")
    { fields := [], direction := some DIRECTION_OSCILLATE } DIRECTION_OSCILLATE rfl).2.1 rfl

/-- C3 (confirmed): the direction encode emits 0xFD whenever stored
oscillation is true, the stored direction (or 0xFE when unset) when
oscillation is false, and 0xFF when oscillation is unset. -/
theorem C3_get_midea_direction_encode (st : DeviceState) :
    (st.oscillation = some true → get_midea_direction st = DIRECTION_OSCILLATE) ∧
    (∀ d : Int, st.oscillation = some false → st.direction = some d →
      get_midea_direction st = d) ∧
    (st.oscillation = some false → st.direction = none →
      get_midea_direction st = DIRECTION_STOP) ∧
    (st.oscillation = none → get_midea_direction st = DIRECTION_FF) := by
  unfold get_midea_direction
  exact ⟨fun h => by rw [h], fun d h1 h2 => by rw [h1, h2],
    fun h1 h2 => by rw [h1, h2], fun h => by rw [h]⟩

/-- C3 witness: on a fresh device oscillation is unset and the
encode emits 0xFF. -/
theorem C3_witness :
    get_midea_direction (initial_state "") = DIRECTION_FF :=
  (C3_get_midea_direction_encode (initial_state "")).2.2.2 rfl

/-- The claimed direction invariant: stored direction is unset or an
integer in [60, 120]. -/
def dirOk (st : DeviceState) : Prop :=
  st.direction = none ∨
    ∃ d : Int, st.direction = some d ∧
      DIRECTION_MIN_VALUE ≤ d ∧ d ≤ DIRECTION_MAX_VALUE

/-- An event whose inbound direction byte (if any) is one the wire
protocol defines: a sentinel or an angle in [60, 120]. -/
def eventDirOk : Event → Prop
  | Event.msg m => ∀ d : Int, m.direction = some d →
      d = DIRECTION_00 ∨ d = DIRECTION_STOP ∨ d = DIRECTION_FF ∨
      d = DIRECTION_OSCILLATE ∨
      (DIRECTION_MIN_VALUE ≤ d ∧ d ≤ DIRECTION_MAX_VALUE)
  | Event.set _ _ => True

/-- One event preserves the direction invariant when its direction
byte is protocol-defined. -/
theorem dirOk_applyEvent (st : DeviceState) (e : Event)
    (hok : dirOk st) (he : eventDirOk e) : dirOk (applyEvent st e) := by
  cases e with
  | msg m =>
    have h1 := process_message_fst_direction st m
    show dirOk (process_message st m).1
    cases hm : m.direction with
    | none =>
      simp only [hm] at h1
      unfold dirOk
      rw [h1]
      exact hok
    | some d =>
      have hd := he d hm
      simp only [hm] at h1
      unfold dirOk
      rcases hd with h | h | h | h | h
      · rw [if_pos (by tauto)] at h1
        rw [h1]; exact hok
      · rw [if_pos (by tauto)] at h1
        rw [h1]; exact hok
      · rw [if_pos (by tauto)] at h1
        rw [h1]; exact hok
      · subst h
        rw [if_neg (by unfold DIRECTION_OSCILLATE DIRECTION_STOP DIRECTION_00 DIRECTION_FF; omega),
            if_pos rfl] at h1
        exact Or.inl h1
      · rw [if_neg (by
            unfold DIRECTION_MIN_VALUE DIRECTION_MAX_VALUE at h
            unfold DIRECTION_STOP DIRECTION_00 DIRECTION_FF
            omega),
          if_neg (by
            unfold DIRECTION_MIN_VALUE DIRECTION_MAX_VALUE at h
            unfold DIRECTION_OSCILLATE
            omega)] at h1
        exact Or.inr ⟨d, h1, h⟩
  | set attr v =>
    show dirOk (set_attribute st attr v).1
    have h := set_attribute_fst st attr v
    unfold dirOk
    rw [h]
    exact hok

/-- Running events whose direction bytes are protocol-defined
preserves the direction invariant. -/
theorem dirOk_runEvents (events : List Event) :
    ∀ st : DeviceState, dirOk st → (∀ e ∈ events, eventDirOk e) →
      dirOk (runEvents st events) := by
  induction events with
  | nil => intro st h _; exact h
  | cons e es ih =>
    intro st h hall
    exact ih (applyEvent st e) (dirOk_applyEvent st e h (hall e (by simp)))
      (fun e' he' => hall e' (by simp [he']))

/-- C4 (corrected), counterexample to the claim as stated: the wire
byte 45 — not a sentinel, not in [60, 120] — reaches the storing
branch of the decode, so one `process_message` call from a fresh
device stores direction 45, outside [60, 120]. -/
theorem C4_counterexample_direction_45 :
    (process_message (initial_state "")
        { fields := [], direction := some 45 }).1.direction = some 45 ∧
    ¬(DIRECTION_MIN_VALUE ≤ (45 : Int) ∧ (45 : Int) ≤ DIRECTION_MAX_VALUE) :=
  ⟨rfl, by decide⟩

/-- C4 (amended): in every state reached from a freshly constructed
device by `process_message` and `set_attribute` calls in which every
processed message's direction byte, when present, is one the
protocol defines (0x00, 0xFE, 0xFF, 0xFD or [60, 120]), the stored
direction is unset or an integer in [60, 120]. -/
theorem C4_direction_invariant (customize : String) (events : List Event)
    (h : ∀ e ∈ events, eventDirOk e) :
    dirOk (runEvents (initial_state customize) events) := by
  apply dirOk_runEvents events (initial_state customize) _ h
  unfold initial_state
  unfold dirOk
  rw [set_customize_direction]
  exact Or.inl rfl

/-- C4 witness: after an in-range direction byte 70 on a fresh
device, the invariant holds. -/
theorem C4_witness :
    dirOk (runEvents (initial_state "")
      [Event.msg { fields := [], direction := some 70 }]) :=
  C4_direction_invariant "" [Event.msg { fields := [], direction := some 70 }]
    (by
      intro e he
      simp only [List.mem_singleton] at he
      subst he
      intro d hd
      have : d = 70 := by simpa using hd.symm
      subst this
      right; right; right; right
      unfold DIRECTION_MIN_VALUE DIRECTION_MAX_VALUE
      omega)

/-- C5 (confirmed): setting `ventilation` while the stored fan speed
equals the reserved ventilation speed 2 sends a message carrying
fan_speed 1 and the requested value coerced to boolean. -/
theorem C5_ventilation_steals_fan_speed (st : DeviceState) (value : PyVal)
    (h : st.fan_speed = VENTILATION_FAN_SPEED) :
    ∃ msg : MessageSet,
      (set_attribute st "ventilation" value).1.outbox = st.outbox ++ [msg] ∧
      msg.fan_speed = PyVal.int 1 ∧
      msg.ventilation = PyVal.bool (pyBool value) := by
  refine ⟨{ fields := st.fields, light := PyVal.bool st.light,
            ventilation := PyVal.bool (pyBool value),
            smelly_sensor := PyVal.bool st.smelly_sensor,
            fan_speed := PyVal.int 1,
            direction := PyVal.int (get_midea_direction st) }, ?_, rfl, rfl⟩
  unfold set_attribute
  rw [if_pos (by decide : ("ventilation" : String) ∈ settable),
    if_neg (by decide : ¬("ventilation" : String) = "direction"),
    if_pos ⟨rfl, by rw [h]⟩]

/-- C5 witness: a fresh device with stored fan speed forced to 2. -/
theorem C5_witness :
    ((set_attribute { initial_state "" with fan_speed := VENTILATION_FAN_SPEED }
        "ventilation" (PyVal.bool true)).1.outbox.map
          (fun msg => (msg.fan_speed, msg.ventilation)))
      = [(PyVal.int 1, PyVal.bool true)] := by
  obtain ⟨msg, h1, h2, h3⟩ := C5_ventilation_steals_fan_speed
    { initial_state "" with fan_speed := VENTILATION_FAN_SPEED } (PyVal.bool true) rfl
  rw [h1]
  simp only [List.map]
  rw [h2, h3]
  rfl

/-- C6 (confirmed): with a truthy precision flag, an exposed raw
temperature v is stored as v / 2. -/
theorem C6_precision_halves_temperature (st : DeviceState)
    (m : MessageX40Response) (v : Rat)
    (hp : truthy st.precision_halves = true)
    (hm : m.current_temperature = some v) :
    (process_message st m).1.current_temperature = some (v / 2) := by
  have h := process_message_fst_temperature st m
  simp only [hm, hp, if_true] at h
  exact h

/-- C6 witness: customize enables halving, then a raw temperature of
50 is stored as 25. -/
theorem C6_witness :
    (process_message (initial_state "\x7b\"precision_halves\": true\x7d")
        { fields := [], current_temperature := some 50 }).1.current_temperature
      = some 25 := by
  have h := C6_precision_halves_temperature
    (initial_state "\x7b\"precision_halves\": true\x7d")
    { fields := [], current_temperature := some 50 } 50 rfl rfl
  rw [show ((50 : Rat) / 2) = 25 by norm_num] at h
  exact h

/-- C7 (corrected), counterexample to the claim as stated: calling
`set_customize` with the empty string on a device whose flag is true
and whose `update_all` notification log is empty reverts the flag
but records no notification — the resolved flag is not propagated. -/
theorem C7_counterexample_no_notification :
    (set_customize { initial_state "" with precision_halves := Json.bool true }
        "").precision_halves = Json.bool false ∧
    (set_customize { initial_state "" with precision_halves := Json.bool true }
        "").updateAllLog = [] :=
  ⟨rfl, rfl⟩

/-- C7 (amended): on an empty customize string the precision flag
reverts to the default false, but `update_all` is not invoked — the
notification path runs only for a nonempty customize string (the
exception log is also untouched). -/
theorem C7_empty_customize_resets_silently (st : DeviceState) :
    (set_customize st "").precision_halves = Json.bool false ∧
    (set_customize st "").updateAllLog = st.updateAllLog ∧
    (set_customize st "").exceptionLog = st.exceptionLog := by
  unfold set_customize
  rw [if_neg (by simp)]
  exact ⟨rfl, rfl, rfl⟩

/-- C8 (confirmed): a nonempty customize string that fails to parse
as JSON leaves the precision flag at the default, is caught (the
exception is logged, not propagated — the embedded `set_customize`
is total), and still notifies `update_all` with the default flag. -/
theorem C8_malformed_customize_caught (st : DeviceState) (s : String)
    (hne : s ≠ "") (hbad : jsonLoads s = Except.error ()) :
    (set_customize st s).precision_halves = default_precision_halves ∧
    (set_customize st s).exceptionLog = st.exceptionLog + 1 ∧
    (set_customize st s).updateAllLog
      = st.updateAllLog ++ [default_precision_halves] := by
  have hcp : customizeParse s = Except.error PyErr.valueError := by
    unfold customizeParse
    rw [hbad]
    rfl
  unfold set_customize
  rw [if_pos hne, hcp]
  exact ⟨rfl, rfl, rfl⟩

/-- C8 witness: the malformed string from the spec's example leaves
a fresh device at the default flag with one logged exception. -/
theorem C8_witness :
    (set_customize (initial_state "") "\x7bbad json").precision_halves
        = default_precision_halves ∧
    (set_customize (initial_state "") "\x7bbad json").exceptionLog = 1 := by
  have h := C8_malformed_customize_caught (initial_state "") "\x7bbad json"
    (by decide) rfl
  exact ⟨h.1, by rw [h.2.1]; rfl⟩

/-- C9 (confirmed): `set_attribute` never changes the stored
attributes, the raw field cache, or the precision flag; its only
effect is appending the built outbound message (if any) to the send
path. -/
theorem C9_set_attribute_frame (st : DeviceState) (attr : String) (value : PyVal) :
    (set_attribute st attr value).1.light = st.light ∧
    (set_attribute st attr value).1.fan_speed = st.fan_speed ∧
    (set_attribute st attr value).1.direction = st.direction ∧
    (set_attribute st attr value).1.oscillation = st.oscillation ∧
    (set_attribute st attr value).1.ventilation = st.ventilation ∧
    (set_attribute st attr value).1.smelly_sensor = st.smelly_sensor ∧
    (set_attribute st attr value).1.current_temperature = st.current_temperature ∧
    (set_attribute st attr value).1.fields = st.fields ∧
    (set_attribute st attr value).1.precision_halves = st.precision_halves ∧
    (set_attribute st attr value).1.updateAllLog = st.updateAllLog ∧
    ∃ sent : List MessageSet,
      (set_attribute st attr value).1.outbox = st.outbox ++ sent := by
  have h := set_attribute_fst st attr value
  rw [h]
  exact ⟨rfl, rfl, rfl, rfl, rfl, rfl, rfl, rfl, rfl, rfl,
    set_attribute_outbox st attr value⟩

/-- C10 (confirmed): for every attribute name outside the five
settable ones, `set_attribute` is a complete no-op — the state is
returned unchanged (no message built or sent) and no exception is
raised. -/
theorem C10_non_settable_noop (st : DeviceState) (attr : String) (value : PyVal)
    (h : attr ∉ settable) :
    set_attribute st attr value = (st, Except.ok ()) := by
  unfold set_attribute
  rw [if_neg h]

/-- C10 witness: the read-only attribute `oscillation` is silently
ignored. -/
theorem C10_witness :
    set_attribute (initial_state "") "oscillation" (PyVal.bool true)
      = (initial_state "", Except.ok ()) :=
  C10_non_settable_noop (initial_state "") "oscillation" (PyVal.bool true)
    (by decide)
